import Mathlib

/-!
Shallow embedding of src/net.rs (transport abstraction layer: listeners,
acceptors, streams, connector, SSL error normalization, and the
type-erasure/downcast machinery for boxed network streams).

External collaborators (the plain-socket library and the OpenSSL binding)
are not part of this repository; they are modelled through their minimal
call contracts: every fallible external primitive is an oracle field of a
`World`, and each embedded operation additionally returns the list of
external calls it performed (its event trace), so that claims about which
resources are touched, and in which order, are statable.
-/

/-- Error kinds of the shared I/O error taxonomy (std::io::IoErrorKind).
Kinds not named in net.rs are carried by the passthrough constructor. -/
inductive IoErrorKind : Type
  | connectionAborted
  | invalidInput
  | otherIoError
  | passthrough (tag : Nat)
  deriving DecidableEq, Repr

/-- The shared error record (std::io::IoError): kind, static description,
optional detail string. -/
structure IoError : Type where
  kind : IoErrorKind
  desc : String
  detail : Option String
  deriving DecidableEq, Repr

/-- An opaque OpenSSL error-queue entry (openssl::ssl::error::ErrorCode);
its internal structure is irrelevant here, so it is an opaque code. -/
abbrev OpensslErrorCode : Type := Nat

/-- Textual rendering of an OpenSSL error list, the model of the
format string applied to the error vector in lift_ssl_error. -/
def formatOpensslErrors (errs : List OpensslErrorCode) : String :=
  String.intercalate ", " (errs.map (fun (c : Nat) => toString c))

/-- The secure-transport error domain (openssl::ssl::error::SslError). -/
inductive SslError : Type
  | streamError (err : IoError)
  | sslSessionClosed
  | openSslErrors (errs : List OpensslErrorCode)
  deriving DecidableEq

/-- Embedding of fn lift_ssl_error (net.rs lines 318-335): normalizes the
secure-library error domain into the shared IoError taxonomy. -/
def lift_ssl_error : SslError → IoError
  | .streamError err => err
  | .sslSessionClosed =>
      { kind := .connectionAborted
        desc := "SSL Connection Closed"
        detail := none }
  | .openSslErrors errs =>
      { kind := .otherIoError
        desc := "Error in OpenSSL"
        detail := some (formatOpensslErrors errs) }

/-- The SSL method argument (openssl::ssl::SslMethod); net.rs only ever
uses Sslv23. -/
inductive SslMethod : Type
  | sslv23
  deriving DecidableEq, Repr

/-- Certificate or key file encoding (openssl::x509::X509FileType). -/
inductive X509FileType : Type
  | pem
  deriving DecidableEq, Repr

/-- Peer-verification mode (openssl::ssl::SslVerifyMode). -/
inductive SslVerifyMode : Type
  | sslVerifyPeer
  | sslVerifyNone
  deriving DecidableEq, Repr

/-- An opaque verify-callback value (openssl::ssl::VerifyCallback is a
function pointer; only its identity matters to this layer). -/
abbrev VerifyCallback : Type := Nat

/-- A socket address (std::io::net::ip::SocketAddr), opaque up to
ip and port. -/
structure SocketAddr : Type where
  ip : Nat
  port : Nat
  deriving DecidableEq, Repr

/-- Model of openssl::ssl::SslContext as the configuration accumulated by
the setter calls net.rs performs on it. A fresh context has no cipher
list, no certificate, no key, and the library-default verification
setting. -/
structure SslContext : Type where
  method : SslMethod
  cipherList : Option String
  certFile : Option (String × X509FileType)
  keyFile : Option (String × X509FileType)
  verify : Option (SslVerifyMode × Option VerifyCallback)
  deriving DecidableEq, Repr

/-- Model of SslContext::new on the configuration state (the fallibility
of the underlying library call lives in the World oracle). -/
def SslContext.new (method : SslMethod) : SslContext :=
  { method := method
    cipherList := none
    certFile := none
    keyFile := none
    verify := none }

/-- Model of SslContext::set_verify: records the mode and optional
callback on the context. -/
def SslContext.set_verify (c : SslContext) (mode : SslVerifyMode)
    (cb : Option VerifyCallback) : SslContext :=
  { c with verify := some (mode, cb) }

/-- A plain TCP stream handle, identified by the underlying OS connection
resource it references. Cloning a TcpStream in the source aliases the
same resource, so the model of clone preserves the identifier. -/
structure TcpStream : Type where
  id : Nat
  deriving DecidableEq, Repr

/-- Model of TcpStream::clone: a second handle to the same OS resource. -/
def TcpStream.clone (s : TcpStream) : TcpStream := { id := s.id }

/-- A bound (not yet listening) TCP socket. -/
structure TcpListener : Type where
  id : Nat
  deriving DecidableEq, Repr

/-- A listening TCP socket able to accept connections. -/
structure TcpAcceptor : Type where
  id : Nat
  deriving DecidableEq, Repr

/-- Model of an openssl::ssl::Ssl session value: it is created from a
context (copying its configuration) and can carry a hostname set by
Ssl::set_hostname. SslContext itself has no hostname field, so a session
freshly derived from a context carries none. -/
structure Ssl : Type where
  ctx : SslContext
  hostname : Option String
  deriving DecidableEq, Repr

/-- Model of Ssl::new: a fresh session derived from the context; no
hostname has been set on it. -/
def Ssl.new (ctx : SslContext) : Ssl :=
  { ctx := ctx, hostname := none }

/-- Model of Ssl::set_hostname on the session value. -/
def Ssl.set_hostname (s : Ssl) (host : String) : Ssl :=
  { s with hostname := some host }

/-- Model of openssl::ssl::SslStream over a TcpStream: the secure layer
wraps an inner plain connection; session is the Ssl value the handshake
used. SslStream::new and SslStream::new_server receive only a context and
the inner stream, so the session they run is Ssl.new of that context. -/
structure SslStream : Type where
  session : Ssl
  inner : TcpStream
  deriving DecidableEq, Repr

/-- Model of SslStream::get_mut: borrows the inner plain connection. -/
def SslStream.get_mut (s : SslStream) : TcpStream := s.inner

/-- Model of SslStream::clone: both handles alias the same underlying
connection resource. -/
def SslStream.clone (s : SslStream) : SslStream :=
  { session := s.session, inner := s.inner.clone }

/-- Embedding of enum HttpStream (net.rs lines 242-247): a stream over
plain HTTP, or one protected by SSL. -/
inductive HttpStream : Type
  | http (inner : TcpStream)
  | https (inner : SslStream)
  deriving DecidableEq, Repr

/-- Embedding of the derived Clone for HttpStream: clones the payload of
whichever variant is active. -/
def HttpStream.clone : HttpStream → HttpStream
  | .http inner => .http inner.clone
  | .https inner => .https inner.clone

/-- Variant tag of a stream handle: true when the Secure (Https) variant
is active. -/
def HttpStream.isSecure : HttpStream → Bool
  | .http _ => false
  | .https _ => true

/-- The OS connection resource a stream handle ultimately references
(through the secure layer for Https). -/
def HttpStream.underlyingId : HttpStream → Nat
  | .http inner => inner.id
  | .https inner => inner.inner.id

/-- Model of Arc (std::sync::Arc): a shared read-only reference to the
value; dereferencing yields exactly the value placed inside. -/
structure Arc (α : Type) : Type where
  val : α
  deriving DecidableEq, Repr

/-- Model of Arc::new. -/
def Arc.new {α : Type} (a : α) : Arc α := { val := a }

/-- Embedding of enum HttpListener (net.rs lines 156-161). -/
inductive HttpListener : Type
  | httpL (inner : TcpListener)
  | httpsL (inner : TcpListener) (ctx : SslContext)
  deriving DecidableEq, Repr

/-- Embedding of enum HttpAcceptor (net.rs lines 208-213). -/
inductive HttpAcceptor : Type
  | httpA (inner : TcpAcceptor)
  | httpsA (inner : TcpAcceptor) (ctx : Arc SslContext)
  deriving DecidableEq, Repr

/-- Embedding of struct HttpConnector (net.rs line 287): an optional
caller-supplied peer-verification callback. -/
structure HttpConnector : Type where
  verifyCb : Option VerifyCallback
  deriving DecidableEq, Repr

/-- One external call performed by the embedded operations; traces of
these events make resource usage and call order statable. -/
inductive Event : Type
  | tcpConnect (host : String) (port : Nat)
  | tcpBind (addr : SocketAddr)
  | tcpListen (id : Nat)
  | tcpAccept (id : Nat)
  | sslContextNew (method : SslMethod)
  | setCipherList (ciphers : String)
  | setCertificateFile (path : String) (ft : X509FileType)
  | setPrivateKeyFile (path : String) (ft : X509FileType)
  | setVerify (mode : SslVerifyMode) (hasCallback : Bool)
  | sslNew
  | setHostname (host : String)
  | sslHandshakeClient (tcpId : Nat)
  | sslHandshakeServer (tcpId : Nat)
  deriving DecidableEq, Repr

/-- Oracle for the outcomes of the external primitives (plain-socket
library and OpenSSL binding). Each field decides whether the
corresponding call succeeds and with what payload; the embedded
operations are deterministic given a World. -/
structure World : Type where
  tcpConnect : String → Nat → Except IoError TcpStream
  tcpBind : SocketAddr → Except IoError TcpListener
  tcpListen : Nat → Except IoError TcpAcceptor
  tcpAccept : Nat → Except IoError TcpStream
  tcpPeerName : Nat → Except IoError SocketAddr
  tcpSocketName : Nat → Except IoError SocketAddr
  tcpCloseAccept : Nat → Except IoError Unit
  sslContextNew : SslMethod → Except SslError Unit
  setCipherList : String → Option SslError
  setCertificateFile : String → X509FileType → Option SslError
  setPrivateKeyFile : String → X509FileType → Option SslError
  sslNew : Except SslError Unit
  setHostname : String → Except SslError Unit
  sslHandshakeClient : Nat → Except SslError Unit
  sslHandshakeServer : Nat → Except SslError Unit

/-- Model of TcpStream::peer_name: queries the OS for the remote address
of the given connection resource. -/
def TcpStream.peer_name (w : World) (s : TcpStream) : Except IoError SocketAddr :=
  w.tcpPeerName s.id

/-- Embedding of NetworkStream::peer_name for HttpStream (net.rs lines
277-282): Http queries the connection directly; Https queries the inner
plain connection through get_mut. -/
def HttpStream.peer_name (w : World) : HttpStream → Except IoError SocketAddr
  | .http inner => inner.peer_name w
  | .https inner => inner.get_mut.peer_name w

/-- Embedding of NetworkConnector::connect for HttpConnector (net.rs
lines 290-315). Returns the result together with the trace of external
calls made. The https arm mirrors the source statement by statement:
TcpStream::connect, SslContext::new(Sslv23), the optional set_verify, a
fresh Ssl with set_hostname, then SslStream::new(context, stream); the
binding named ssl is the session the hostname is set on, and it is not
an argument of SslStream::new. -/
def HttpConnector.connect (conn : HttpConnector) (w : World) (host : String)
    (port : Nat) (scheme : String) : Except IoError HttpStream × List Event :=
  if scheme = "http" then
    match w.tcpConnect host port with
    | .error e => (.error e, [.tcpConnect host port])
    | .ok stream => (.ok (.http stream), [.tcpConnect host port])
  else if scheme = "https" then
    match w.tcpConnect host port with
    | .error e => (.error e, [.tcpConnect host port])
    | .ok stream =>
      let t0 : List Event := [.tcpConnect host port, .sslContextNew .sslv23]
      match w.sslContextNew .sslv23 with
      | .error e => (.error (lift_ssl_error e), t0)
      | .ok _ =>
        let context := SslContext.new .sslv23
        let context :=
          match conn.verifyCb with
          | some cb => context.set_verify .sslVerifyPeer (some cb)
          | none => context
        let t1 : List Event := t0 ++
          (match conn.verifyCb with
           | some _ => [.setVerify .sslVerifyPeer true]
           | none => [])
        match w.sslNew with
        | .error e => (.error (lift_ssl_error e), t1 ++ [.sslNew])
        | .ok _ =>
          let ssl := Ssl.new context
          match w.setHostname host with
          | .error e => (.error (lift_ssl_error e), t1 ++ [.sslNew, .setHostname host])
          | .ok _ =>
            let _ssl := ssl.set_hostname host
            let t2 : List Event := t1 ++ [.sslNew, .setHostname host,
              .sslHandshakeClient stream.id]
            match w.sslHandshakeClient stream.id with
            | .error e => (.error (lift_ssl_error e), t2)
            | .ok _ =>
              (.ok (.https { session := Ssl.new context, inner := stream }), t2)
  else
    (.error { kind := .invalidInput
              desc := "Invalid scheme for Http"
              detail := none }, [])

/-- Embedding of NetworkListener::bind for HttpListener (net.rs lines
176-178): binds a plain TCP socket and wraps it as the Plain variant. -/
def HttpListener.bind (w : World) (addr : SocketAddr) :
    Except IoError HttpListener × List Event :=
  match w.tcpBind addr with
  | .error e => (.error e, [.tcpBind addr])
  | .ok l => (.ok (.httpL l), [.tcpBind addr])

/-- Embedding of NetworkListener::bind_with_ssl for HttpListener (net.rs
lines 181-195), statement by statement: SslContext::new(Sslv23),
set_cipher_list of the string DEFAULT, set_certificate_file and
set_private_key_file as PEM, set_verify(SslVerifyNone, None), and only
then TcpListener::bind inside the final Ok. -/
def HttpListener.bind_with_ssl (w : World) (addr : SocketAddr)
    (cert key : String) : Except IoError HttpListener × List Event :=
  let t0 : List Event := [.sslContextNew .sslv23]
  match w.sslContextNew .sslv23 with
  | .error e => (.error (lift_ssl_error e), t0)
  | .ok _ =>
    let ctx := SslContext.new .sslv23
    let t1 := t0 ++ [.setCipherList "DEFAULT"]
    match w.setCipherList "DEFAULT" with
    | some err => (.error (lift_ssl_error err), t1)
    | none =>
      let ctx := { ctx with cipherList := some "DEFAULT" }
      let t2 := t1 ++ [.setCertificateFile cert .pem]
      match w.setCertificateFile cert .pem with
      | some err => (.error (lift_ssl_error err), t2)
      | none =>
        let ctx := { ctx with certFile := some (cert, .pem) }
        let t3 := t2 ++ [.setPrivateKeyFile key .pem]
        match w.setPrivateKeyFile key .pem with
        | some err => (.error (lift_ssl_error err), t3)
        | none =>
          let ctx := { ctx with keyFile := some (key, .pem) }
          let ctx := ctx.set_verify .sslVerifyNone none
          let t4 := t3 ++ [.setVerify .sslVerifyNone false, .tcpBind addr]
          match w.tcpBind addr with
          | .error e => (.error e, t4)
          | .ok l => (.ok (.httpsL l ctx), t4)

/-- Embedding of NetworkListener::socket_name for HttpListener (net.rs
lines 198-203). -/
def HttpListener.socket_name (w : World) : HttpListener → Except IoError SocketAddr
  | .httpL inner => w.tcpSocketName inner.id
  | .httpsL inner _ => w.tcpSocketName inner.id

/-- Embedding of Listener::listen for HttpListener (net.rs lines
165-171): consumes the listener; the Secure variant wraps the listening
socket together with Arc::new of the already-built context. No SSL
library call occurs here, as the trace shows. -/
def HttpListener.listen (w : World) : HttpListener → Except IoError HttpAcceptor × List Event
  | .httpL inner =>
    match w.tcpListen inner.id with
    | .error e => (.error e, [.tcpListen inner.id])
    | .ok a => (.ok (.httpA a), [.tcpListen inner.id])
  | .httpsL inner ssl_context =>
    match w.tcpListen inner.id with
    | .error e => (.error e, [.tcpListen inner.id])
    | .ok a => (.ok (.httpsA a (Arc.new ssl_context)), [.tcpListen inner.id])

/-- Embedding of Acceptor::accept for HttpAcceptor (net.rs lines
217-227): Plain wraps the accepted connection directly; Secure runs
SslStream::new_server with the shared context and normalizes a handshake
failure through lift_ssl_error. -/
def HttpAcceptor.accept (w : World) : HttpAcceptor → Except IoError HttpStream × List Event
  | .httpA inner =>
    match w.tcpAccept inner.id with
    | .error e => (.error e, [.tcpAccept inner.id])
    | .ok s => (.ok (.http s), [.tcpAccept inner.id])
  | .httpsA inner ssl_context =>
    match w.tcpAccept inner.id with
    | .error e => (.error e, [.tcpAccept inner.id])
    | .ok s =>
      let t := [Event.tcpAccept inner.id, Event.sslHandshakeServer s.id]
      match w.sslHandshakeServer s.id with
      | .error e => (.error (lift_ssl_error e), t)
      | .ok _ =>
        (.ok (.https { session := Ssl.new ssl_context.val, inner := s }), t)

/-- Embedding of NetworkAcceptor::close for HttpAcceptor (net.rs lines
232-237). -/
def HttpAcceptor.close (w : World) : HttpAcceptor → Except IoError Unit
  | .httpA inner => w.tcpCloseAccept inner.id
  | .httpsA inner _ => w.tcpCloseAccept inner.id

/-!
Type erasure and downcast (net.rs lines 115-153). A value of type
Box of NetworkStream + Send is a concrete stream value together with its
runtime TypeId; Ty indexes the concrete stream types behind the trait
object (TypeIds of distinct types are distinct, hence DecidableEq), and
P gives the concrete value type at each index.
-/

/-- A boxed type-erased stream: the runtime type tag plus the concrete
value of that type. -/
structure ErasedBox (Ty : Type) (P : Ty → Type) : Type where
  ty : Ty
  val : P ty

/-- Model of Any::get_type_id on the trait object. -/
def ErasedBox.get_type_id {Ty : Type} {P : Ty → Type} (b : ErasedBox Ty P) : Ty :=
  b.ty

/-- Embedding of AnyRefExt::is (net.rs lines 126-128): runtime type-id
equality with the target type. -/
def ErasedBox.is {Ty : Type} [DecidableEq Ty] {P : Ty → Type}
    (b : ErasedBox Ty P) (T : Ty) : Bool :=
  decide (b.get_type_id = T)

/-- Embedding of UncheckedBoxAnyDowncast::downcast_unchecked (net.rs
lines 116-121): reinterprets the data pointer as the target type with no
runtime check. When the runtime type really is T this yields the boxed
concrete value; otherwise the source is undefined behavior, modelled
here as none. -/
def ErasedBox.downcast_unchecked {Ty : Type} [DecidableEq Ty] {P : Ty → Type}
    (b : ErasedBox Ty P) (T : Ty) : Option (P T) :=
  if h : b.ty = T then some (h ▸ b.val) else none

/-- Embedding of BoxAny::downcast (net.rs lines 146-152): if the runtime
type-id test succeeds, take the unchecked path and transfer the concrete
value to the caller as Ok; otherwise return the original box as Err. -/
def ErasedBox.downcast {Ty : Type} [DecidableEq Ty] {P : Ty → Type}
    (b : ErasedBox Ty P) (T : Ty) : Except (ErasedBox Ty P) (P T) :=
  if h : b.ty = T then .ok (h ▸ b.val) else .error b

/-- Embedding of AnyRefExt::downcast_ref (net.rs lines 131-142): a
non-consuming checked view of the concrete value. -/
def ErasedBox.downcast_ref {Ty : Type} [DecidableEq Ty] {P : Ty → Type}
    (b : ErasedBox Ty P) (T : Ty) : Option (P T) :=
  if h : b.ty = T then some (h ▸ b.val) else none

/-- Embedding of Clone for Box of NetworkStream + Send (net.rs lines
84-87), which calls StreamClone::clone_box (lines 65-70), in turn the
concrete Clone of the payload: the tag is untouched and the payload is
cloned at its own type. -/
def ErasedBox.clone_box {Ty : Type} {P : Ty → Type}
    (cloneP : (t : Ty) → P t → P t) (b : ErasedBox Ty P) : ErasedBox Ty P :=
  { ty := b.ty, val := cloneP b.ty b.val }

/-- Modelled from the spec: MockStream (src/mock.rs is not part of the
visible sources), a test-double concrete stream type; only its identity
as a concrete type distinct from HttpStream matters to these claims. -/
structure MockStream : Type where
  deriving DecidableEq, Repr

/-- Index of the concrete stream types appearing in the repository
(HttpStream and the test double). -/
inductive StreamTy : Type
  | httpStreamTy
  | mockStreamTy
  deriving DecidableEq, Repr

/-- Concrete value type at each index. -/
def StreamPayload : StreamTy → Type
  | .httpStreamTy => HttpStream
  | .mockStreamTy => MockStream

/-- Concrete Clone implementation at each index (HttpStream's derived
Clone; MockStream's clone is the value itself). -/
def streamCloneAt : (t : StreamTy) → StreamPayload t → StreamPayload t
  | .httpStreamTy, s => s.clone
  | .mockStreamTy, m => m

/-- A World in which every external primitive succeeds, used to evaluate
the embedded operations on concrete inputs. -/
def okWorld : World :=
  { tcpConnect := fun _ _ => .ok { id := 1 }
    tcpBind := fun _ => .ok { id := 2 }
    tcpListen := fun n => .ok { id := n }
    tcpAccept := fun _ => .ok { id := 3 }
    tcpPeerName := fun n => .ok { ip := n, port := 80 }
    tcpSocketName := fun n => .ok { ip := n, port := 80 }
    tcpCloseAccept := fun _ => .ok ()
    sslContextNew := fun _ => .ok ()
    setCipherList := fun _ => none
    setCertificateFile := fun _ _ => none
    setPrivateKeyFile := fun _ _ => none
    sslNew := .ok ()
    setHostname := fun _ => .ok ()
    sslHandshakeClient := fun _ => .ok ()
    sslHandshakeServer := fun _ => .ok () }

/-- A World in which set_cipher_list fails (otherwise all succeed). -/
def cipherFailWorld : World :=
  { okWorld with setCipherList := fun _ => some .sslSessionClosed }

/-- A World in which the server-side handshake fails (otherwise all
succeed). -/
def hsFailWorld : World :=
  { okWorld with sslHandshakeServer := fun _ => .error .sslSessionClosed }

/-- The security context bind_with_ssl builds on its success path. -/
def serverSslContext (cert key : String) : SslContext :=
  { method := .sslv23
    cipherList := some "DEFAULT"
    certFile := some (cert, .pem)
    keyFile := some (key, .pem)
    verify := some (.sslVerifyNone, none) }

/-- The complete external-call sequence of a fully successful
bind_with_ssl: all four context-construction steps, the verification
setting, and only then the socket bind. -/
def sslBindTrace (addr : SocketAddr) (cert key : String) : List Event :=
  [.sslContextNew .sslv23, .setCipherList "DEFAULT",
   .setCertificateFile cert .pem, .setPrivateKeyFile key .pem,
   .setVerify .sslVerifyNone false, .tcpBind addr]

/-!
Theorems settling the claims.
-/

/-- C3: lift_ssl_error is a total pure mapping: a StreamError wrapper
passes the wrapped I/O error through unchanged (kind and detail
preserved), SslSessionClosed maps to kind ConnectionAborted with the
fixed description and no detail, and OpenSslErrors maps to kind
OtherIoError whose detail is the formatted textual rendering of the
error list. -/
theorem lift_ssl_error_spec :
    (∀ err : IoError, lift_ssl_error (.streamError err) = err)
    ∧ (lift_ssl_error .sslSessionClosed
        = { kind := .connectionAborted
            desc := "SSL Connection Closed"
            detail := none })
    ∧ (∀ errs : List OpensslErrorCode,
        lift_ssl_error (.openSslErrors errs)
          = { kind := .otherIoError
              desc := "Error in OpenSSL"
              detail := some (formatOpensslErrors errs) }) :=
  ⟨fun _ => rfl, rfl, fun _ => rfl⟩

/-- C1: a checked downcast succeeds (transferring exactly the stored
concrete value to the caller) if and only if the runtime type of the
boxed stream equals the target type; on a mismatch it fails and returns
the original box unchanged, so a subsequent checked downcast of the
returned box to the correct type still succeeds and yields the stored
value. -/
theorem downcast_iff_type_matches {Ty : Type} [DecidableEq Ty] {P : Ty → Type}
    (b : ErasedBox Ty P) (T : Ty) :
    ((∃ v, b.downcast T = .ok v) ↔ b.get_type_id = T)
    ∧ (∀ h : b.get_type_id = T, b.downcast T = .ok (h ▸ b.val))
    ∧ (b.get_type_id ≠ T →
        b.downcast T = .error b ∧ b.downcast b.get_type_id = .ok b.val) := by
  unfold ErasedBox.downcast ErasedBox.get_type_id
  refine ⟨⟨?_, ?_⟩, ?_, ?_⟩
  · rintro ⟨v, hv⟩
    by_cases h : b.ty = T
    · exact h
    · rw [dif_neg h] at hv
      exact absurd hv (by simp)
  · intro h
    exact ⟨h ▸ b.val, by rw [dif_pos h]⟩
  · intro h
    rw [dif_pos h]
  · intro h
    exact ⟨by rw [dif_neg h], by rw [dif_pos rfl]⟩

/-- C1 witness: a box holding a MockStream fails to downcast to
HttpStream and is returned unchanged, and downcasting the returned box
to MockStream succeeds with the stored value. -/
theorem downcast_iff_type_matches_witness :
    (ErasedBox.mk (P := StreamPayload) .mockStreamTy {}).get_type_id ≠ .httpStreamTy
    ∧ ((ErasedBox.mk (P := StreamPayload) .mockStreamTy {}).downcast .httpStreamTy
        = .error (ErasedBox.mk .mockStreamTy {})
      ∧ (ErasedBox.mk (P := StreamPayload) .mockStreamTy {}).downcast
          (ErasedBox.mk (P := StreamPayload) .mockStreamTy {}).get_type_id
        = .ok (ErasedBox.mk (P := StreamPayload) .mockStreamTy {}).val) :=
  ⟨by decide,
   (downcast_iff_type_matches
     (ErasedBox.mk (P := StreamPayload) .mockStreamTy {}) .httpStreamTy).2.2
     (by decide)⟩

/-- C10: the checked downcast is exactly the unchecked downcast guarded
by the runtime type-id test: when the runtime type equals the target,
downcast returns Ok of precisely the value downcast_unchecked produces;
when it differs, the unchecked path is not taken and the original box
comes back as Err (and the unchecked downcast itself would be undefined
there, modelled as none). -/
theorem downcast_refines_unchecked {Ty : Type} [DecidableEq Ty] {P : Ty → Type}
    (b : ErasedBox Ty P) (T : Ty) :
    (∀ h : b.get_type_id = T,
        b.downcast_unchecked T = some (h ▸ b.val)
        ∧ b.downcast T = .ok (h ▸ b.val))
    ∧ (b.get_type_id ≠ T →
        b.downcast T = .error b ∧ b.downcast_unchecked T = none) := by
  unfold ErasedBox.downcast ErasedBox.downcast_unchecked ErasedBox.get_type_id
  constructor
  · intro h
    exact ⟨by rw [dif_pos h], by rw [dif_pos h]⟩
  · intro h
    exact ⟨by rw [dif_neg h], by rw [dif_neg h]⟩

/-- C10 witness: on a box holding an Http stream, the checked downcast
to HttpStream returns Ok of exactly what the unchecked downcast
produces. -/
theorem downcast_refines_unchecked_witness :
    (ErasedBox.mk (P := StreamPayload) .httpStreamTy
        (HttpStream.http { id := 7 })).downcast_unchecked .httpStreamTy
      = some (HttpStream.http { id := 7 })
    ∧ (ErasedBox.mk (P := StreamPayload) .httpStreamTy
        (HttpStream.http { id := 7 })).downcast .httpStreamTy
      = .ok (HttpStream.http { id := 7 }) :=
  (downcast_refines_unchecked
    (ErasedBox.mk (P := StreamPayload) .httpStreamTy (HttpStream.http { id := 7 }))
    .httpStreamTy).1 rfl

/-- C7: cloning preserves the variant tag exactly and references the
same underlying connection resource, both for the concrete HttpStream
enum (derived Clone) and for the type-erased boxed handle cloned
through clone_box, which keeps the runtime type and clones the payload
at its own type. -/
theorem clone_preserves_variant :
    (∀ s : HttpStream, s.clone.isSecure = s.isSecure)
    ∧ (∀ s : HttpStream, s.clone.underlyingId = s.underlyingId)
    ∧ (∀ t : TcpStream, (HttpStream.http t).clone = .http { id := t.id })
    ∧ (∀ s : SslStream, (HttpStream.https s).clone
        = .https { session := s.session, inner := { id := s.inner.id } })
    ∧ (∀ s : HttpStream,
        (ErasedBox.mk (P := StreamPayload) .httpStreamTy s).clone_box streamCloneAt
          = ErasedBox.mk .httpStreamTy s.clone) := by
  refine ⟨?_, ?_, fun _ => rfl, fun _ => rfl, fun _ => rfl⟩
  · intro s
    cases s <;> rfl
  · intro s
    cases s <;> rfl

/-- C8: peer_name on a Plain stream queries the underlying connection
directly; on a Secure stream it queries the inner plain connection
obtained through get_mut, never the secure layer itself: the result
depends only on the inner TCP resource. -/
theorem peer_name_delegates (w : World) :
    (∀ t : TcpStream, (HttpStream.http t).peer_name w = w.tcpPeerName t.id)
    ∧ (∀ s : SslStream, s.get_mut = s.inner
        ∧ (HttpStream.https s).peer_name w = w.tcpPeerName s.inner.id) :=
  ⟨fun _ => rfl, fun _ => ⟨rfl, rfl⟩⟩

/-- C4: connect with any scheme other than http and https returns an
InvalidInput error, and its external-call trace is empty: no TCP connect
is attempted and no SSL context is constructed. -/
theorem connect_invalid_scheme (conn : HttpConnector) (w : World) (host : String)
    (port : Nat) (scheme : String) (h1 : scheme ≠ "http") (h2 : scheme ≠ "https") :
    conn.connect w host port scheme
      = (.error { kind := .invalidInput
                  desc := "Invalid scheme for Http"
                  detail := none }, []) := by
  unfold HttpConnector.connect
  rw [if_neg h1, if_neg h2]

/-- C4 witness: connect with scheme ftp returns InvalidInput and makes
no external call. -/
theorem connect_invalid_scheme_witness :
    ("ftp" ≠ "http") ∧ ("ftp" ≠ "https")
    ∧ (HttpConnector.mk none).connect okWorld "example.com" 21 "ftp"
      = (.error { kind := .invalidInput
                  desc := "Invalid scheme for Http"
                  detail := none }, []) :=
  ⟨by decide, by decide,
   connect_invalid_scheme (HttpConnector.mk none) okWorld "example.com" 21 "ftp"
     (by decide) (by decide)⟩

/-- C2 (evaluation at the failing input): connect over https with a
configured verify callback, all external calls succeeding, does open the
TCP connection first, build a one-shot client context, install the
callback, and return a Secure stream after the client handshake; but the
hostname is set on a session that is discarded, and the session used for
the handshake, derived from the context alone by SslStream::new, carries
no hostname; moreover no cipher-list call occurs on this path. -/
theorem connect_https_hostname_dropped :
    ((HttpConnector.mk (some 5)).connect okWorld "example.com" 443 "https").1
      = .ok (.https
          { session := Ssl.new
              ((SslContext.new .sslv23).set_verify .sslVerifyPeer (some 5))
            inner := { id := 1 } })
    ∧ (Ssl.new ((SslContext.new .sslv23).set_verify
        .sslVerifyPeer (some 5))).hostname = none
    ∧ ((HttpConnector.mk (some 5)).connect okWorld "example.com" 443 "https").2
      = [.tcpConnect "example.com" 443, .sslContextNew .sslv23,
         .setVerify .sslVerifyPeer true, .sslNew, .setHostname "example.com",
         .sslHandshakeClient 1]
    ∧ Event.setCipherList "DEFAULT"
        ∉ ((HttpConnector.mk (some 5)).connect okWorld "example.com" 443 "https").2 :=
  ⟨rfl, rfl, rfl, by decide⟩

/-- C5 counterexample: on a concrete successful run, the first external
call of bind_with_ssl is the SSL-context construction, not the socket
bind — the passive socket is not opened first; the full trace shows the
bind happening last. -/
theorem bind_with_ssl_socket_not_first :
    (HttpListener.bind_with_ssl okWorld { ip := 0, port := 0 } "cert" "key").2
      = sslBindTrace { ip := 0, port := 0 } "cert" "key"
    ∧ (HttpListener.bind_with_ssl okWorld
        { ip := 0, port := 0 } "cert" "key").2.head?
      ≠ some (.tcpBind { ip := 0, port := 0 }) :=
  ⟨rfl, by decide⟩

/-- C5 (amended): bind_with_ssl builds the security context first
(cipher policy DEFAULT, certificate and key as PEM, verification set to
no-verify) and only then opens the passive socket; when any context
step fails, the normalized error is returned and no socket has been
opened at all; every trace is an initial segment of the canonical
sequence ending in the socket bind. -/
theorem bind_with_ssl_context_before_socket (w : World) (addr : SocketAddr)
    (cert key : String) :
    (∀ e, w.sslContextNew .sslv23 = .error e →
      HttpListener.bind_with_ssl w addr cert key
        = (.error (lift_ssl_error e), [.sslContextNew .sslv23]))
    ∧ (∀ e, w.sslContextNew .sslv23 = .ok () → w.setCipherList "DEFAULT" = some e →
      HttpListener.bind_with_ssl w addr cert key
        = (.error (lift_ssl_error e),
           [.sslContextNew .sslv23, .setCipherList "DEFAULT"]))
    ∧ (∀ e, w.sslContextNew .sslv23 = .ok () → w.setCipherList "DEFAULT" = none →
        w.setCertificateFile cert .pem = some e →
      HttpListener.bind_with_ssl w addr cert key
        = (.error (lift_ssl_error e),
           [.sslContextNew .sslv23, .setCipherList "DEFAULT",
            .setCertificateFile cert .pem]))
    ∧ (∀ e, w.sslContextNew .sslv23 = .ok () → w.setCipherList "DEFAULT" = none →
        w.setCertificateFile cert .pem = none →
        w.setPrivateKeyFile key .pem = some e →
      HttpListener.bind_with_ssl w addr cert key
        = (.error (lift_ssl_error e),
           [.sslContextNew .sslv23, .setCipherList "DEFAULT",
            .setCertificateFile cert .pem, .setPrivateKeyFile key .pem]))
    ∧ (∀ l, w.sslContextNew .sslv23 = .ok () → w.setCipherList "DEFAULT" = none →
        w.setCertificateFile cert .pem = none →
        w.setPrivateKeyFile key .pem = none →
        w.tcpBind addr = .ok l →
      HttpListener.bind_with_ssl w addr cert key
        = (.ok (.httpsL l (serverSslContext cert key)),
           sslBindTrace addr cert key))
    ∧ (∃ rest, (HttpListener.bind_with_ssl w addr cert key).2 ++ rest
        = sslBindTrace addr cert key) := by
  refine ⟨?_, ?_, ?_, ?_, ?_, ?_⟩
  · intro e he
    simp [HttpListener.bind_with_ssl, he]
  · intro e h0 he
    simp [HttpListener.bind_with_ssl, h0, he]
  · intro e h0 h1 he
    simp [HttpListener.bind_with_ssl, h0, h1, he]
  · intro e h0 h1 h2 he
    simp [HttpListener.bind_with_ssl, h0, h1, h2, he]
  · intro l h0 h1 h2 h3 hb
    simp [HttpListener.bind_with_ssl, h0, h1, h2, h3, hb,
      serverSslContext, sslBindTrace, SslContext.new, SslContext.set_verify]
  · rcases h0 : w.sslContextNew .sslv23 with e | u
    · exact ⟨[.setCipherList "DEFAULT", .setCertificateFile cert .pem,
        .setPrivateKeyFile key .pem, .setVerify .sslVerifyNone false,
        .tcpBind addr], by
        simp [HttpListener.bind_with_ssl, h0, sslBindTrace]⟩
    · cases u
      rcases h1 : w.setCipherList "DEFAULT" with _ | e
      · rcases h2 : w.setCertificateFile cert .pem with _ | e
        · rcases h3 : w.setPrivateKeyFile key .pem with _ | e
          · rcases hb : w.tcpBind addr with e | l
            · exact ⟨[], by
                simp [HttpListener.bind_with_ssl, h0, h1, h2, h3, hb, sslBindTrace]⟩
            · exact ⟨[], by
                simp [HttpListener.bind_with_ssl, h0, h1, h2, h3, hb, sslBindTrace]⟩
          · exact ⟨[.setVerify .sslVerifyNone false, .tcpBind addr], by
              simp [HttpListener.bind_with_ssl, h0, h1, h2, h3, sslBindTrace]⟩
        · exact ⟨[.setPrivateKeyFile key .pem, .setVerify .sslVerifyNone false,
            .tcpBind addr], by
            simp [HttpListener.bind_with_ssl, h0, h1, h2, sslBindTrace]⟩
      · exact ⟨[.setCertificateFile cert .pem, .setPrivateKeyFile key .pem,
          .setVerify .sslVerifyNone false, .tcpBind addr], by
          simp [HttpListener.bind_with_ssl, h0, h1, sslBindTrace]⟩

/-- C5 witness: in a world where set_cipher_list fails, bind_with_ssl
returns the normalized error and its trace contains no socket bind. -/
theorem bind_with_ssl_context_before_socket_witness :
    cipherFailWorld.sslContextNew .sslv23 = .ok ()
    ∧ cipherFailWorld.setCipherList "DEFAULT" = some .sslSessionClosed
    ∧ HttpListener.bind_with_ssl cipherFailWorld { ip := 0, port := 0 } "c" "k"
      = (.error (lift_ssl_error .sslSessionClosed),
         [.sslContextNew .sslv23, .setCipherList "DEFAULT"]) :=
  ⟨rfl, rfl,
   (bind_with_ssl_context_before_socket cipherFailWorld
     { ip := 0, port := 0 } "c" "k").2.1 .sslSessionClosed rfl rfl⟩

/-- C6: listen consumes the listener, issuing exactly the transition of
its socket into listening state (and for the Secure variant no SSL call
at all: the context is wrapped, shared through Arc, without
re-validation); accept on a Plain acceptor wraps the accepted connection
directly as a Plain stream, and accept on a Secure acceptor whose
server-side handshake fails returns the lift_ssl_error-normalized error
as the result of that accept call. -/
theorem listen_accept_spec (w : World) :
    (∀ inner : TcpListener, ∀ a, w.tcpListen inner.id = .ok a →
      HttpListener.listen w (.httpL inner)
        = (.ok (.httpA a), [.tcpListen inner.id]))
    ∧ (∀ inner : TcpListener, ∀ ctx a, w.tcpListen inner.id = .ok a →
      HttpListener.listen w (.httpsL inner ctx)
        = (.ok (.httpsA a (Arc.new ctx)), [.tcpListen inner.id])
        ∧ (Arc.new ctx).val = ctx)
    ∧ (∀ inner : TcpAcceptor, ∀ s, w.tcpAccept inner.id = .ok s →
      HttpAcceptor.accept w (.httpA inner)
        = (.ok (.http s), [.tcpAccept inner.id]))
    ∧ (∀ inner : TcpAcceptor, ∀ ctx s e, w.tcpAccept inner.id = .ok s →
        w.sslHandshakeServer s.id = .error e →
      HttpAcceptor.accept w (.httpsA inner ctx)
        = (.error (lift_ssl_error e),
           [.tcpAccept inner.id, .sslHandshakeServer s.id]))
    ∧ (∀ inner : TcpAcceptor, ∀ ctx s, w.tcpAccept inner.id = .ok s →
        w.sslHandshakeServer s.id = .ok () →
      HttpAcceptor.accept w (.httpsA inner ctx)
        = (.ok (.https { session := Ssl.new ctx.val, inner := s }),
           [.tcpAccept inner.id, .sslHandshakeServer s.id])) := by
  refine ⟨?_, ?_, ?_, ?_, ?_⟩
  · intro inner a h
    simp [HttpListener.listen, h]
  · intro inner ctx a h
    exact ⟨by simp [HttpListener.listen, h], rfl⟩
  · intro inner s h
    simp [HttpAcceptor.accept, h]
  · intro inner ctx s e h he
    simp [HttpAcceptor.accept, h, he]
  · intro inner ctx s h hh
    simp [HttpAcceptor.accept, h, hh]

/-- C6 witness: with all external calls succeeding, listen on a Secure
listener yields the Secure acceptor sharing the context; in a world
whose server handshake fails, accept on that acceptor returns the
normalized error. -/
theorem listen_accept_spec_witness :
    okWorld.tcpListen 9 = .ok { id := 9 }
    ∧ (HttpListener.listen okWorld (.httpsL { id := 9 } (SslContext.new .sslv23))
        = (.ok (.httpsA { id := 9 } (Arc.new (SslContext.new .sslv23))),
           [.tcpListen 9])
      ∧ (Arc.new (SslContext.new .sslv23)).val = SslContext.new .sslv23)
    ∧ HttpAcceptor.accept hsFailWorld
        (.httpsA { id := 9 } (Arc.new (SslContext.new .sslv23)))
      = (.error (lift_ssl_error .sslSessionClosed),
         [.tcpAccept 9, .sslHandshakeServer 3]) :=
  ⟨rfl,
   (listen_accept_spec okWorld).2.1 { id := 9 } (SslContext.new .sslv23)
     { id := 9 } rfl,
   (listen_accept_spec hsFailWorld).2.2.2.1 { id := 9 }
     (Arc.new (SslContext.new .sslv23)) { id := 3 } .sslSessionClosed rfl rfl⟩

/-- C9: the transport mode is preserved along the whole pipeline: a
successful bind is always the Plain variant and a successful
bind_with_ssl always the Secure variant; listen maps Plain listeners to
Plain acceptors and Secure listeners to Secure acceptors sharing the
same context; and every successful accept yields the stream variant of
its acceptor — no operation crosses modes. -/
theorem mode_preserved (w : World) :
    (∀ addr l, (HttpListener.bind w addr).1 = .ok l → ∃ t, l = .httpL t)
    ∧ (∀ addr cert key l,
        (HttpListener.bind_with_ssl w addr cert key).1 = .ok l →
        ∃ t ctx, l = .httpsL t ctx)
    ∧ (∀ inner a, (HttpListener.listen w (.httpL inner)).1 = .ok a →
        ∃ x, a = .httpA x)
    ∧ (∀ inner ctx a, (HttpListener.listen w (.httpsL inner ctx)).1 = .ok a →
        ∃ x, a = .httpsA x (Arc.new ctx))
    ∧ (∀ inner s, (HttpAcceptor.accept w (.httpA inner)).1 = .ok s →
        ∃ t, s = .http t)
    ∧ (∀ inner ctx s, (HttpAcceptor.accept w (.httpsA inner ctx)).1 = .ok s →
        ∃ t, s = .https t) := by
  refine ⟨?_, ?_, ?_, ?_, ?_, ?_⟩
  · intro addr l h
    rcases hb : w.tcpBind addr with e | t <;>
      simp [HttpListener.bind, hb] at h
    exact ⟨t, h.symm⟩
  · intro addr cert key l h
    unfold HttpListener.bind_with_ssl at h
    rcases h0 : w.sslContextNew .sslv23 with e | u <;> rw [h0] at h
    · simp at h
    · cases u
      rcases h1 : w.setCipherList "DEFAULT" with _ | e <;> rw [h1] at h
      · rcases h2 : w.setCertificateFile cert .pem with _ | e <;> rw [h2] at h
        · rcases h3 : w.setPrivateKeyFile key .pem with _ | e <;> rw [h3] at h
          · rcases hb : w.tcpBind addr with e | t <;> rw [hb] at h <;> simp at h
            exact ⟨t, _, h.symm⟩
          · simp at h
        · simp at h
      · simp at h
  · intro inner a h
    rcases hl : w.tcpListen inner.id with e | x <;>
      simp [HttpListener.listen, hl] at h
    exact ⟨x, h.symm⟩
  · intro inner ctx a h
    rcases hl : w.tcpListen inner.id with e | x <;>
      simp [HttpListener.listen, hl] at h
    exact ⟨x, h.symm⟩
  · intro inner s h
    rcases ha : w.tcpAccept inner.id with e | t <;>
      simp [HttpAcceptor.accept, ha] at h
    exact ⟨t, h.symm⟩
  · intro inner ctx s h
    rcases ha : w.tcpAccept inner.id with e | t <;>
      simp [HttpAcceptor.accept, ha] at h
    rcases hh : w.sslHandshakeServer t.id with e | u <;> rw [hh] at h <;> simp at h
    exact ⟨_, h.symm⟩

/-- C9 witness: with all external calls succeeding, a successful secure
accept yields the Secure stream variant. -/
theorem mode_preserved_witness :
    (HttpAcceptor.accept okWorld
        (.httpsA { id := 9 } (Arc.new (SslContext.new .sslv23)))).1
      = .ok (.https { session := Ssl.new (SslContext.new .sslv23)
                      inner := { id := 3 } })
    ∧ ∃ t, (HttpStream.https { session := Ssl.new (SslContext.new .sslv23)
                               inner := { id := 3 } }) = .https t :=
  ⟨rfl,
   (mode_preserved okWorld).2.2.2.2.2 { id := 9 }
     (Arc.new (SslContext.new .sslv23))
     (.https { session := Ssl.new (SslContext.new .sslv23)
               inner := { id := 3 } }) rfl⟩

